import Mathlib

/-!
Shallow embedding of the adaptive performance controller, quality ladder and
scroll-driven glass state machine of the portfolio page.  The definitions
below are translated from the JavaScript sources (the inline script of the
main page, given as `src/unnamed/part_000` / `part_001`, and
`src/src/effects/OverlayEffects.js`).  JavaScript numbers are modelled as
rationals; wall-clock timestamps (`performance.now()`) are rational
parameters; the module-level mutable variables of the script become the
fields of an explicit state record that every operation threads through.
`Math.exp`, used only inside the continuous-time EMA smoothing, is kept as
an uninterpreted function parameter so that all definitions stay executable
and every theorem about the controller holds for any exponential.
-/

namespace Portfolio

/-- Device categories produced by `detectDeviceProfile` (part_001 lines
1120-1146): `'phone' | 'tablet' | 'fanless' | 'desktop'`. -/
inductive Category where
  | phone
  | tablet
  | fanless
  | desktop
deriving DecidableEq, Repr

/-- Absolute safety ceiling for the effective device pixel ratio
(part_001 line 1107): `const MAX_EFFECTIVE_DPR = 1.75`. -/
def MAX_EFFECTIVE_DPR : ℚ := 175 / 100

/-- Quantized DPR bucket multipliers, descending order (part_001 line 1155):
`const DPR_BUCKETS = [1.0, 0.9, 0.8]`. -/
def DPR_BUCKETS : List ℚ := [1, 9 / 10, 8 / 10]

/-- One effect-quality tier of the ladder (part_001 lines 1160-1165). -/
structure EffectTier where
  name : String
  bloomScale : ℚ
  reededScale : ℚ
deriving DecidableEq, Repr

/-- Effect quality tiers, level 0 = best (part_001 lines 1160-1165). -/
def EFFECT_QUALITY_LEVELS : List EffectTier :=
  [ { name := "ultra", bloomScale := 1, reededScale := 1 },
    { name := "high", bloomScale := 82 / 100, reededScale := 9 / 10 },
    { name := "med", bloomScale := 68 / 100, reededScale := 8 / 10 },
    { name := "low", bloomScale := 55 / 100, reededScale := 7 / 10 } ]

/-- Performance adaptation thresholds (part_001 lines 1169-1173). -/
def PERF_FPS_DROP_THRESHOLD : ℚ := 55

/-- Raise threshold (part_001 line 1170). -/
def PERF_FPS_RAISE_THRESHOLD : ℚ := 65

/-- Milliseconds of continuous low perf before degrading (part_001 line 1171). -/
def PERF_DEGRADE_MIN_DURATION : ℚ := 4000

/-- Milliseconds of sustained high perf before upgrading (part_001 line 1172). -/
def PERF_UPGRADE_MIN_DURATION : ℚ := 6000

/-- Milliseconds between any two ladder changes (part_001 line 1173). -/
def PERF_CHANGE_DEBOUNCE : ℚ := 1300

/-- EMA smoothing window in seconds (part_001 line 1176). -/
def EMA_WINDOW_SECONDS : ℚ := 1

/-- Framebuffer pixel budget (part_001 line 1277): `const PIXEL_BUDGET = 9_000_000`. -/
def PIXEL_BUDGET : ℚ := 9000000

/-- The module-level mutable state of the adaptive controller: the device
profile record returned by `detectDeviceProfile` (its `category`,
`baseCapInitial`, `baseCapMax`, mutable `baseCapCurrent`) together with the
script-level variables `_dprBucketIndex`, `_effectQualityLevel`,
`_emaFrameTime`, `_lastPerfChangeTime`, `_lowPerfAccum`, `_highPerfAccum`,
`_lastEmaFPS`, `_lastCSSW`/`_lastCSSH`, `_resumeGuardUntil`,
`_resumeIgnoreFrames` and `_postResumeDebounceUntil`.  `deviceDPR` models
the read-only `window.devicePixelRatio`. -/
structure PerfState where
  category : Category
  baseCapInitial : ℚ
  baseCapMax : ℚ
  baseCapCurrent : ℚ
  deviceDPR : ℚ
  dprBucketIndex : ℕ
  effectQualityLevel : ℕ
  emaFrameTime : ℚ
  lastPerfChangeTime : ℚ
  lowPerfAccum : ℚ
  highPerfAccum : ℚ
  lastEmaFPS : ℚ
  lastCSSW : ℚ
  lastCSSH : ℚ
  resumeGuardUntil : ℚ
  resumeIgnoreFrames : ℕ
  postResumeDebounceUntil : ℚ
deriving DecidableEq, Repr

/-- Bucket multiplier lookup `DPR_BUCKETS[i] || 1.0` (part_001 line 1223):
an out-of-range index yields `undefined`, which `|| 1.0` replaces by 1. -/
def bucketMul (i : ℕ) : ℚ := DPR_BUCKETS.getD i 1

/-- The function `currentTargetPixelRatio` (part_001 lines 1221-1225)
evaluated at an explicit bucket index `b`:
`Math.min(baseCapCurrent * bucketMul, MAX_EFFECTIVE_DPR, devicePixelRatio)`. -/
def currentTargetPixelRatioAt (s : PerfState) (b : ℕ) : ℚ :=
  min (min (s.baseCapCurrent * bucketMul b) MAX_EFFECTIVE_DPR) s.deviceDPR

/-- The function `currentTargetPixelRatio` at the state's own bucket index. -/
def currentTargetPixelRatio (s : PerfState) : ℚ :=
  currentTargetPixelRatioAt s s.dprBucketIndex

/-- Projected framebuffer pixel count `_lastCSSW * _lastCSSH * pr * pr`
(part_001 lines 1280 and 1285) at bucket index `b`. -/
def internalPixelsAt (s : PerfState) (b : ℕ) : ℚ :=
  s.lastCSSW * s.lastCSSH * currentTargetPixelRatioAt s b * currentTargetPixelRatioAt s b

/-- The `while` loop of `enforcePixelBudget` (part_001 lines 1282-1287):
advance the bucket index while the projected pixel count exceeds the budget
and the worst bucket has not been reached.  `px b` is the pixel count the
loop recomputes after each step, i.e. `internalPixelsAt s b`. -/
def enforceBucketLoop (px : ℕ → ℚ) (b : ℕ) : ℕ :=
  if h : px b > PIXEL_BUDGET ∧ b < DPR_BUCKETS.length - 1 then
    enforceBucketLoop px (b + 1)
  else
    b
termination_by DPR_BUCKETS.length - b
decreasing_by
  simp only [DPR_BUCKETS, List.length] at h ⊢
  omega

/-- The function `enforcePixelBudget` (part_001 lines 1278-1293).  Its only
effect on the modelled state is the bucket-advancing loop; the trailing
`_applyRendererPixelRatio()` call performed when the bucket changed only
pushes sizes to the external renderer handles and re-enters
`enforcePixelBudget`, which by the idempotence proved below leaves the
bucket index fixed, so the embedding folds that call away. -/
def enforcePixelBudget (s : PerfState) : PerfState :=
  { s with dprBucketIndex := enforceBucketLoop (internalPixelsAt s) s.dprBucketIndex }

/-- The function `_applyRendererPixelRatio` (part_001 lines 1227-1239).
Everything it does except its final `enforcePixelBudget()` call writes to
external collaborators (renderer, composer, vignette, reeded effect) and is
invisible in the modelled state. -/
def applyRendererPixelRatio (s : PerfState) : PerfState :=
  enforcePixelBudget s

/-- The function `_effectiveDebounceMs` (part_001 lines 1246-1248):
`PERF_CHANGE_DEBOUNCE + (now < _postResumeDebounceUntil ? 700 : 0)`. -/
def effectiveDebounceMs (now : ℚ) (s : PerfState) : ℚ :=
  PERF_CHANGE_DEBOUNCE + (if now < s.postResumeDebounceUntil then 700 else 0)

/-- The function `attemptDegrade` (part_001 lines 1250-1274): refuse during
the resume guard or inside the debounce window; otherwise advance the effect
tier if it is not at its worst, else advance the DPR bucket if it is not at
its worst, else do nothing.  `applyEffectQuality()` only writes to the
external reeded-effect handle and so has no state effect. -/
def attemptDegrade (now : ℚ) (s : PerfState) : PerfState :=
  if now < s.resumeGuardUntil then s
  else if now - s.lastPerfChangeTime < effectiveDebounceMs now s then s
  else if s.effectQualityLevel < EFFECT_QUALITY_LEVELS.length - 1 then
    { s with effectQualityLevel := s.effectQualityLevel + 1, lastPerfChangeTime := now }
  else if s.dprBucketIndex < DPR_BUCKETS.length - 1 then
    { applyRendererPixelRatio { s with dprBucketIndex := s.dprBucketIndex + 1 } with
        lastPerfChangeTime := now }
  else s

/-- The function `attemptUpgrade` (part_001 lines 1295-1328): refuse inside
the debounce window; otherwise retract the DPR bucket if it is above its
best index 0, else retract the effect tier if above 0, else — only for the
desktop category with `baseCapCurrent < baseCapMax` — raise `baseCapCurrent`
by 0.1 clamped to `baseCapMax`. -/
def attemptUpgrade (now : ℚ) (s : PerfState) : PerfState :=
  if now - s.lastPerfChangeTime < effectiveDebounceMs now s then s
  else if 0 < s.dprBucketIndex then
    { applyRendererPixelRatio { s with dprBucketIndex := s.dprBucketIndex - 1 } with
        lastPerfChangeTime := now }
  else if 0 < s.effectQualityLevel then
    { s with effectQualityLevel := s.effectQualityLevel - 1, lastPerfChangeTime := now }
  else if s.category = Category.desktop ∧ s.baseCapCurrent < s.baseCapMax then
    { applyRendererPixelRatio
        { s with baseCapCurrent := min s.baseCapMax (s.baseCapCurrent + 1 / 10) } with
        lastPerfChangeTime := now }
  else s

/-- The function `_triggerResumeGuard` (part_001 lines 1191-1200): arm the
4.5 s no-downscale window, arrange for the next 60 frame samples to be
ignored, extend the debounce window for 7 s, reset the EMA to the optimistic
1/60 and zero both accumulators; `_lastPerfChangeTime = now` pushes the next
allowed change. -/
def triggerResumeGuard (now : ℚ) (s : PerfState) : PerfState :=
  { s with
      resumeGuardUntil := now + 4500
      resumeIgnoreFrames := 60
      postResumeDebounceUntil := now + 7000
      emaFrameTime := 1 / 60
      lowPerfAccum := 0
      highPerfAccum := 0
      lastPerfChangeTime := now }

/-- The function `perfAdaptiveUpdate` (part_001 lines 1330-1381).  `e` is
the uninterpreted exponential used by the continuous-time EMA coefficient
`alpha = 1 - Math.exp(-delta / EMA_WINDOW_SECONDS)`; `delta` is the frame
time in seconds and `now` the `performance.now()` timestamp.  Debug-HUD
writes are external and not modelled. -/
def perfAdaptiveUpdate (e : ℚ → ℚ) (delta now : ℚ) (s : PerfState) : PerfState :=
  let alpha := 1 - e (-(delta / EMA_WINDOW_SECONDS))
  if 0 < s.resumeIgnoreFrames then
    { s with resumeIgnoreFrames := s.resumeIgnoreFrames - 1 }
  else
    let ema := s.emaFrameTime + alpha * (delta - s.emaFrameTime)
    let emaFPS := 1 / ema
    let s1 := { s with emaFrameTime := ema, lastEmaFPS := emaFPS }
    if emaFPS < PERF_FPS_DROP_THRESHOLD then
      let s2 := { s1 with lowPerfAccum := s1.lowPerfAccum + delta * 1000, highPerfAccum := 0 }
      if PERF_DEGRADE_MIN_DURATION ≤ s2.lowPerfAccum then
        { attemptDegrade now s2 with lowPerfAccum := 0 }
      else s2
    else if PERF_FPS_RAISE_THRESHOLD ≤ emaFPS then
      let s2 := { s1 with highPerfAccum := s1.highPerfAccum + delta * 1000, lowPerfAccum := 0 }
      if PERF_UPGRADE_MIN_DURATION ≤ s2.highPerfAccum then
        { attemptUpgrade now s2 with highPerfAccum := 0 }
      else s2
    else
      { s1 with
          lowPerfAccum := max 0 (s1.lowPerfAccum - delta * 400)
          highPerfAccum := max 0 (s1.highPerfAccum - delta * 400) }

/-- The debug override `window.__perfDebug.setBaseCap` (part_001 line 1513):
`baseCapCurrent = Math.min(Math.max(0.5, v), baseCapMax)` followed by
`_applyRendererPixelRatio()`. -/
def setBaseCap (v : ℚ) (s : PerfState) : PerfState :=
  applyRendererPixelRatio { s with baseCapCurrent := min (max (1 / 2) v) s.baseCapMax }

/-- The debug override `window.__perfDebug.forceBucket` (part_001 line 1511):
`_dprBucketIndex = Math.min(Math.max(0, i), DPR_BUCKETS.length - 1)` followed
by `_applyRendererPixelRatio()`. -/
def forceBucket (i : ℤ) (s : PerfState) : PerfState :=
  applyRendererPixelRatio
    { s with dprBucketIndex := (min (max 0 i) (DPR_BUCKETS.length - 1)).toNat }

/-- The debug override `window.__perfDebug.forceTier` (part_001 line 1512):
`_effectQualityLevel = Math.min(Math.max(0, i), EFFECT_QUALITY_LEVELS.length - 1)`
followed by `applyEffectQuality()` (external only). -/
def forceTier (i : ℤ) (s : PerfState) : PerfState :=
  { s with effectQualityLevel := (min (max 0 i) (EFFECT_QUALITY_LEVELS.length - 1)).toNat }

/-- Base saturation value for the hue/saturation effect (part_001 line 1622):
`let baseSaturation = -0.25`. -/
def baseSaturation : ℚ := -(25 / 100)

/-- Base tone-mapping exposure stored for scroll darkening (part_001 line
1618): `let baseExposure = 1.0`. -/
def baseExposure : ℚ := 1

/-- The glass configuration record returned by `getGlassModeForProgress`
(part_001 lines 1648-1674): `effectProgress` is the left-side coverage and
`rightSideProgress` the right-side coverage. -/
structure GlassConfig where
  splitScreen : Bool
  boundary : ℚ
  effectProgress : ℚ
  rightSideProgress : ℚ
deriving DecidableEq, Repr

/-- The function `getGlassModeForProgress` (part_001 lines 1648-1674,
identical in part_000 lines 1262-1288): two-phase split-screen policy over
the scroll progress. -/
def getGlassModeForProgress (scrollProgress : ℚ) : GlassConfig :=
  if scrollProgress ≤ 1 / 2 then
    { splitScreen := true
      boundary := 1 / 2
      effectProgress := scrollProgress * 2
      rightSideProgress := 0 }
  else
    { splitScreen := true
      boundary := 1 / 2
      effectProgress := 1
      rightSideProgress := (scrollProgress - 1 / 2) * 2 }

/-- The saturation value written by `updateSaturationForScroll` (part_001
lines 1625-1632, identical in part_000 lines 1252-1259):
`baseSaturation - (scrollProgress * 0.0)` is assigned to
`hueSatEffect.saturation`; the assignment is the function's only effect and
is skipped as a no-op when the handle is absent. -/
def updateSaturationForScroll (scrollProgress : ℚ) : ℚ :=
  baseSaturation - scrollProgress * 0

/-- The clamp helper `THREE.MathUtils.clamp(value, min, max)` used by
`computeExposureForScroll`: `Math.max(min, Math.min(max, value))`. -/
def threeClamp (value lo hi : ℚ) : ℚ := max lo (min hi value)

/-- The function `computeExposureForScroll` (part_001 lines 1636-1645):
keep `baseExposure` for progress up to 0.5, then smoothstep-lerp towards
`baseExposure * 0.7` over the back half. -/
def computeExposureForScroll (scrollProgress : ℚ) : ℚ :=
  let start : ℚ := 1 / 2
  let stop : ℚ := 1
  let t := threeClamp ((scrollProgress - start) / (stop - start)) 0 1
  let eased := t * t * (3 - 2 * t)
  let finalFactor : ℚ := 7 / 10
  baseExposure * (1 - eased * (1 - finalFactor))

/-- A JavaScript value handed to a numeric uniform setter: a finite number,
`NaN`, `undefined` or `null`.  `orZero` models the `x || 0` defaulting
idiom: a finite number keeps its value (`0 || 0` is still 0) and every
non-numeric or missing value collapses to 0. -/
inductive JSNum where
  | num (q : ℚ)
  | nan
  | undef
  | jsNull
deriving DecidableEq, Repr

/-- The value of the JavaScript expression `x || 0` for a `JSNum`. -/
def JSNum.orZero : JSNum → ℚ
  | JSNum.num q => q
  | _ => 0

/-- The scroll-relevant uniforms of the reeded-glass effect.  The effect
constructor creates all of them unconditionally (OverlayEffects.js lines
420-424), so the `U.has(...)` presence checks in the setters are true for
every constructed effect handle. -/
structure ReededUniforms where
  scrollProgress : ℚ
  splitScreenMode : ℚ
  splitScreenBoundary : ℚ
  rightSideProgress : ℚ
deriving DecidableEq, Repr

/-- The exported helper `setReededScrollProgress` (OverlayEffects.js lines
499-505): a missing effect handle makes the call a no-op, otherwise
`Math.max(0, Math.min(1, scrollProgress || 0))` is written to the
`scrollProgress` uniform. -/
def setReededScrollProgress (effect : Option ReededUniforms) (scrollProgress : JSNum) :
    Option ReededUniforms :=
  match effect with
  | none => none
  | some u => some { u with scrollProgress := max 0 (min 1 scrollProgress.orZero) }

/-- The exported helper `setReededSplitScreenMode` (OverlayEffects.js lines
517-529): a missing effect handle makes the call a no-op, otherwise the
mode flag becomes 1 or 0 and boundary and right-side progress are written
clamped to the unit interval. -/
def setReededSplitScreenMode (effect : Option ReededUniforms) (enabled : Bool)
    (boundary rightSideProgress : ℚ) : Option ReededUniforms :=
  match effect with
  | none => none
  | some u =>
      some { u with
        splitScreenMode := if enabled then 1 else 0
        splitScreenBoundary := max 0 (min 1 boundary)
        rightSideProgress := max 0 (min 1 rightSideProgress) }

/-! ## Lemmas about the pixel-budget loop -/

/-- The loop leaves a bucket alone when its guard already fails. -/
lemma enforceBucketLoop_no_change (px : ℕ → ℚ) (b : ℕ)
    (h : ¬ (px b > PIXEL_BUDGET ∧ b < DPR_BUCKETS.length - 1)) :
    enforceBucketLoop px b = b := by
  rw [enforceBucketLoop]
  exact dif_neg h

/-- Fuel-indexed form of the loop postcondition: the returned bucket fails
the loop guard. -/
lemma enforceBucketLoop_post_aux (px : ℕ → ℚ) :
    ∀ (n b : ℕ), DPR_BUCKETS.length - 1 - b ≤ n →
      ¬ (px (enforceBucketLoop px b) > PIXEL_BUDGET ∧
          enforceBucketLoop px b < DPR_BUCKETS.length - 1) := by
  intro n
  induction n with
  | zero =>
      intro b hb
      have hfloor : ¬ (px b > PIXEL_BUDGET ∧ b < DPR_BUCKETS.length - 1) :=
        fun hc => absurd hc.2 (by omega)
      rw [enforceBucketLoop_no_change px b hfloor]
      exact hfloor
  | succ n ih =>
      intro b hb
      by_cases hc : px b > PIXEL_BUDGET ∧ b < DPR_BUCKETS.length - 1
      · have hstep : enforceBucketLoop px b = enforceBucketLoop px (b + 1) := by
          rw [enforceBucketLoop]
          exact dif_pos hc
        rw [hstep]
        exact ih (b + 1) (by omega)
      · rw [enforceBucketLoop_no_change px b hc]
        exact hc

/-- The bucket returned by the budget loop fails the loop guard: either it
is within budget or it sits at the worst bucket. -/
lemma enforceBucketLoop_post (px : ℕ → ℚ) (b : ℕ) :
    ¬ (px (enforceBucketLoop px b) > PIXEL_BUDGET ∧
        enforceBucketLoop px b < DPR_BUCKETS.length - 1) :=
  enforceBucketLoop_post_aux px (DPR_BUCKETS.length - 1 - b) b (by omega)

/-- Running the budget loop on its own result changes nothing. -/
lemma enforceBucketLoop_idem (px : ℕ → ℚ) (b : ℕ) :
    enforceBucketLoop px (enforceBucketLoop px b) = enforceBucketLoop px b :=
  enforceBucketLoop_no_change px _ (enforceBucketLoop_post px b)

/-- The projected pixel count reads only the base cap, the device ratio and
the CSS size, none of which the bucket field update touches. -/
lemma internalPixelsAt_bucket_irrel (s : PerfState) (k : ℕ) :
    internalPixelsAt { s with dprBucketIndex := k } = internalPixelsAt s :=
  rfl

/-! ## Claim theorems -/

/-- C6: `enforcePixelBudget()` is idempotent under unchanged inputs — with
the CSS pixel size, `baseCapCurrent` and the bucket table unchanged between
two successive calls, the second call produces no further DPR bucket
change (indeed no state change at all). -/
theorem enforcePixelBudget_idempotent (s : PerfState) :
    enforcePixelBudget (enforcePixelBudget s) = enforcePixelBudget s := by
  simp only [enforcePixelBudget, internalPixelsAt_bucket_irrel]
  congr 1
  exact enforceBucketLoop_idem (internalPixelsAt s) s.dprBucketIndex

/-- C10: for every scroll progress value, including values outside `[0, 1]`,
the glass configuration has `splitScreen = true` and `boundary = 0.5`:
split-screen mode is never disabled and the boundary never moves. -/
theorem glass_always_split_at_half (p : ℚ) :
    (getGlassModeForProgress p).splitScreen = true ∧
    (getGlassModeForProgress p).boundary = 1 / 2 := by
  unfold getGlassModeForProgress
  split <;> exact ⟨rfl, rfl⟩

/-- C3: two-phase coverage policy — for progress `p ≤ 1/2` the right-side
coverage is 0 and the left-side coverage (`effectProgress`) is `2p`; for
`1/2 < p ≤ 1` the left side is pinned at 1 and the right-side coverage is
`2(p - 1/2)`. -/
theorem glass_coverage_two_phase (p : ℚ) :
    (0 ≤ p → p ≤ 1 / 2 →
      (getGlassModeForProgress p).rightSideProgress = 0 ∧
      (getGlassModeForProgress p).effectProgress = 2 * p) ∧
    (1 / 2 < p → p ≤ 1 →
      (getGlassModeForProgress p).effectProgress = 1 ∧
      (getGlassModeForProgress p).rightSideProgress = 2 * (p - 1 / 2)) := by
  constructor
  · intro h0 hhalf
    rw [getGlassModeForProgress, if_pos hhalf]
    exact ⟨rfl, mul_comm p 2⟩
  · intro hhalf h1
    rw [getGlassModeForProgress, if_neg (not_le.mpr hhalf)]
    exact ⟨rfl, mul_comm (p - 1 / 2) 2⟩

/-- Witness for C3 at the concrete inputs `p = 1/4` and `p = 3/4`. -/
theorem glass_coverage_two_phase_check :
    ((getGlassModeForProgress (1 / 4)).rightSideProgress = 0 ∧
      (getGlassModeForProgress (1 / 4)).effectProgress = 2 * (1 / 4)) ∧
    ((getGlassModeForProgress (3 / 4)).effectProgress = 1 ∧
      (getGlassModeForProgress (3 / 4)).rightSideProgress = 2 * (3 / 4 - 1 / 2)) :=
  ⟨(glass_coverage_two_phase (1 / 4)).1 (by norm_num) (by norm_num),
    (glass_coverage_two_phase (3 / 4)).2 (by norm_num) (by norm_num)⟩

/-- C7 (code evaluation): the saturation written by
`updateSaturationForScroll` is `baseSaturation` for every progress value —
the scroll multiplier in the source is `0.0`, so saturation never eases
toward a more desaturated target, not even at full scroll `p = 1`,
contradicting the comments inside the same function (`part_001` lines
1629-1630: base −0.25, target −0.8, "Reduces saturation by 0.30 when fully
scrolled"). -/
theorem saturation_constant_under_scroll :
    (∀ p : ℚ, updateSaturationForScroll p = baseSaturation) ∧
    updateSaturationForScroll 1 = -(25 / 100) := by
  constructor
  · intro p
    simp [updateSaturationForScroll]
  · norm_num [updateSaturationForScroll, baseSaturation]

/-- The exposure half of the scroll-darkening design does hold in the code:
over the front half of the range the exposure keeps its base value. -/
lemma computeExposureForScroll_front_half (p : ℚ) (h : p ≤ 1 / 2) :
    computeExposureForScroll p = baseExposure := by
  simp only [computeExposureForScroll, threeClamp]
  have hx : (p - 1 / 2) / (1 - 1 / 2) ≤ 0 := by
    apply div_nonpos_of_nonpos_of_nonneg <;> linarith
  rw [min_eq_right (by linarith : (p - 1 / 2) / (1 - 1 / 2) ≤ 1), max_eq_left hx]
  ring

/-- At full scroll the exposure reaches the final factor 0.7 of its base. -/
lemma computeExposureForScroll_at_one :
    computeExposureForScroll 1 = baseExposure * (7 / 10) := by
  norm_num [computeExposureForScroll, threeClamp]

/-- C8: writing scroll progress to the reeded-glass handle never fails —
the call on an absent handle is a no-op, the value written is always inside
`[0, 1]`, an in-range numeric input is written unchanged, and non-numeric
or missing inputs are treated as 0. -/
theorem setReededScrollProgress_total_clamped :
    (∀ x, setReededScrollProgress none x = none) ∧
    (∀ (u : ReededUniforms) (x : JSNum), ∃ u2,
      setReededScrollProgress (some u) x = some u2 ∧
      0 ≤ u2.scrollProgress ∧ u2.scrollProgress ≤ 1) ∧
    (∀ (u : ReededUniforms) (q : ℚ), 0 ≤ q → q ≤ 1 →
      setReededScrollProgress (some u) (JSNum.num q) =
        some { u with scrollProgress := q }) ∧
    (∀ (u : ReededUniforms) (x : JSNum),
      x = JSNum.nan ∨ x = JSNum.undef ∨ x = JSNum.jsNull →
      setReededScrollProgress (some u) x = some { u with scrollProgress := 0 }) := by
  refine ⟨fun x => rfl, fun u x => ?_, fun u q h0 h1 => ?_, fun u x hx => ?_⟩
  · refine ⟨_, rfl, le_max_left 0 _, max_le (by norm_num) (min_le_left 1 _)⟩
  · simp only [setReededScrollProgress, JSNum.orZero]
    rw [min_eq_right h1, max_eq_right h0]
  · rcases hx with h | h | h <;> subst h <;>
      simp [setReededScrollProgress, JSNum.orZero]

/-- Witness for C8: an in-range numeric input on a concrete handle is
written through unchanged. -/
theorem setReededScrollProgress_total_clamped_check :
    setReededScrollProgress (some ⟨0, 0, 1 / 2, 0⟩) (JSNum.num (1 / 3)) =
      some { (⟨0, 0, 1 / 2, 0⟩ : ReededUniforms) with scrollProgress := 1 / 3 } :=
  setReededScrollProgress_total_clamped.2.2.1 ⟨0, 0, 1 / 2, 0⟩ (1 / 3)
    (by norm_num) (by norm_num)

/-- C1: a degrade step advances the effect tier before the DPR bucket.
Outside the resume guard and the debounce window: when the tier is not at
its worst it is incremented and the bucket is untouched; when the tier is
at its worst and the bucket is not, the bucket is incremented (provided the
independent pixel-budget clamp, re-run by `_applyRendererPixelRatio`, does
not bind at the new bucket — the budget hypothesis); when both are at their
worst the call changes nothing at all. -/
theorem degrade_advances_tier_before_bucket (now : ℚ) (s : PerfState)
    (hguard : s.resumeGuardUntil ≤ now)
    (hdeb : effectiveDebounceMs now s ≤ now - s.lastPerfChangeTime) :
    (s.effectQualityLevel < EFFECT_QUALITY_LEVELS.length - 1 →
      (attemptDegrade now s).effectQualityLevel = s.effectQualityLevel + 1 ∧
      (attemptDegrade now s).dprBucketIndex = s.dprBucketIndex) ∧
    (s.effectQualityLevel = EFFECT_QUALITY_LEVELS.length - 1 →
      s.dprBucketIndex < DPR_BUCKETS.length - 1 →
      internalPixelsAt s (s.dprBucketIndex + 1) ≤ PIXEL_BUDGET →
      (attemptDegrade now s).dprBucketIndex = s.dprBucketIndex + 1 ∧
      (attemptDegrade now s).effectQualityLevel = s.effectQualityLevel) ∧
    (s.effectQualityLevel = EFFECT_QUALITY_LEVELS.length - 1 →
      s.dprBucketIndex = DPR_BUCKETS.length - 1 →
      attemptDegrade now s = s) := by
  have hg : ¬ now < s.resumeGuardUntil := not_lt.mpr hguard
  have hd : ¬ now - s.lastPerfChangeTime < effectiveDebounceMs now s := not_lt.mpr hdeb
  refine ⟨fun htier => ?_, fun htier hbucket hbudget => ?_, fun htier hbucket => ?_⟩
  · rw [attemptDegrade, if_neg hg, if_neg hd, if_pos htier]
    exact ⟨rfl, rfl⟩
  · have hnt : ¬ s.effectQualityLevel < EFFECT_QUALITY_LEVELS.length - 1 := by omega
    have hloop : enforceBucketLoop (internalPixelsAt s) (s.dprBucketIndex + 1) =
        s.dprBucketIndex + 1 :=
      enforceBucketLoop_no_change _ _ (fun hc => absurd hc.1 (not_lt.mpr hbudget))
    rw [attemptDegrade, if_neg hg, if_neg hd, if_neg hnt, if_pos hbucket]
    refine ⟨?_, rfl⟩
    simp only [applyRendererPixelRatio, enforcePixelBudget, internalPixelsAt_bucket_irrel]
    exact hloop
  · have hnt : ¬ s.effectQualityLevel < EFFECT_QUALITY_LEVELS.length - 1 := by omega
    have hnb : ¬ s.dprBucketIndex < DPR_BUCKETS.length - 1 := by omega
    rw [attemptDegrade, if_neg hg, if_neg hd, if_neg hnt, if_neg hnb]

/-- Concrete controller state for the C1 witness: best tier, best bucket,
no guard or debounce pending, modest CSS size. -/
def wStateC1 : PerfState :=
  { category := Category.desktop
    baseCapInitial := 155 / 100
    baseCapMax := 7 / 4
    baseCapCurrent := 155 / 100
    deviceDPR := 2
    dprBucketIndex := 0
    effectQualityLevel := 0
    emaFrameTime := 1 / 60
    lastPerfChangeTime := 0
    lowPerfAccum := 0
    highPerfAccum := 0
    lastEmaFPS := 60
    lastCSSW := 1280
    lastCSSH := 720
    resumeGuardUntil := 0
    resumeIgnoreFrames := 0
    postResumeDebounceUntil := 0 }

/-- Witness for C1: from the best tier, a degrade step at `now = 2000`
advances the tier to 1 and leaves the bucket at 0. -/
theorem degrade_advances_tier_before_bucket_check :
    (attemptDegrade 2000 wStateC1).effectQualityLevel = 1 ∧
    (attemptDegrade 2000 wStateC1).dprBucketIndex = 0 :=
  (degrade_advances_tier_before_bucket 2000 wStateC1
      (by norm_num [wStateC1])
      (by norm_num [wStateC1, effectiveDebounceMs, PERF_CHANGE_DEBOUNCE])).1
    (by simp [wStateC1, EFFECT_QUALITY_LEVELS])

/-- C2: an upgrade step retracts the DPR bucket before the effect tier.
Outside the debounce window: when the bucket is above its best index 0 it
is decremented and tier and base cap are untouched (provided the
pixel-budget clamp does not bind at the restored bucket); when the bucket
is at 0 and the tier above 0 the tier is decremented; when both are at
their best, `baseCapCurrent` rises by 0.1 clamped to `baseCapMax` — but
only for the desktop category with headroom, and in every other case the
call changes nothing. -/
theorem upgrade_retracts_bucket_before_tier (now : ℚ) (s : PerfState)
    (hdeb : effectiveDebounceMs now s ≤ now - s.lastPerfChangeTime) :
    (0 < s.dprBucketIndex →
      internalPixelsAt s (s.dprBucketIndex - 1) ≤ PIXEL_BUDGET →
      (attemptUpgrade now s).dprBucketIndex = s.dprBucketIndex - 1 ∧
      (attemptUpgrade now s).effectQualityLevel = s.effectQualityLevel ∧
      (attemptUpgrade now s).baseCapCurrent = s.baseCapCurrent) ∧
    (s.dprBucketIndex = 0 → 0 < s.effectQualityLevel →
      (attemptUpgrade now s).effectQualityLevel = s.effectQualityLevel - 1 ∧
      (attemptUpgrade now s).dprBucketIndex = s.dprBucketIndex ∧
      (attemptUpgrade now s).baseCapCurrent = s.baseCapCurrent) ∧
    (s.dprBucketIndex = 0 → s.effectQualityLevel = 0 →
      s.category = Category.desktop → s.baseCapCurrent < s.baseCapMax →
      internalPixelsAt
          { s with baseCapCurrent := min s.baseCapMax (s.baseCapCurrent + 1 / 10) }
          s.dprBucketIndex ≤ PIXEL_BUDGET →
      (attemptUpgrade now s).baseCapCurrent = min s.baseCapMax (s.baseCapCurrent + 1 / 10) ∧
      s.baseCapCurrent < (attemptUpgrade now s).baseCapCurrent ∧
      (attemptUpgrade now s).baseCapCurrent ≤ s.baseCapMax ∧
      (attemptUpgrade now s).dprBucketIndex = s.dprBucketIndex ∧
      (attemptUpgrade now s).effectQualityLevel = s.effectQualityLevel) ∧
    (s.dprBucketIndex = 0 → s.effectQualityLevel = 0 →
      ¬ (s.category = Category.desktop ∧ s.baseCapCurrent < s.baseCapMax) →
      attemptUpgrade now s = s) := by
  have hd : ¬ now - s.lastPerfChangeTime < effectiveDebounceMs now s := not_lt.mpr hdeb
  refine ⟨fun hb hbudget => ?_, fun hb0 ht => ?_, fun hb0 ht0 hcat hcap hbudget => ?_,
    fun hb0 ht0 hnot => ?_⟩
  · have hloop : enforceBucketLoop (internalPixelsAt s) (s.dprBucketIndex - 1) =
        s.dprBucketIndex - 1 :=
      enforceBucketLoop_no_change _ _ (fun hc => absurd hc.1 (not_lt.mpr hbudget))
    rw [attemptUpgrade, if_neg hd, if_pos hb]
    refine ⟨?_, rfl, rfl⟩
    simp only [applyRendererPixelRatio, enforcePixelBudget, internalPixelsAt_bucket_irrel]
    exact hloop
  · have hnb : ¬ 0 < s.dprBucketIndex := by omega
    rw [attemptUpgrade, if_neg hd, if_neg hnb, if_pos ht]
    exact ⟨rfl, rfl, rfl⟩
  · have hnb : ¬ 0 < s.dprBucketIndex := by omega
    have hnt : ¬ 0 < s.effectQualityLevel := by omega
    have hloop :
        enforceBucketLoop
            (internalPixelsAt
              { s with baseCapCurrent := min s.baseCapMax (s.baseCapCurrent + 1 / 10) })
            s.dprBucketIndex = s.dprBucketIndex :=
      enforceBucketLoop_no_change _ _ (fun hc => absurd hc.1 (not_lt.mpr hbudget))
    rw [attemptUpgrade, if_neg hd, if_neg hnb, if_neg hnt, if_pos ⟨hcat, hcap⟩]
    refine ⟨rfl, ?_, ?_, ?_, rfl⟩
    · show s.baseCapCurrent < min s.baseCapMax (s.baseCapCurrent + 1 / 10)
      exact lt_min hcap (by linarith)
    · show min s.baseCapMax (s.baseCapCurrent + 1 / 10) ≤ s.baseCapMax
      exact min_le_left _ _
    · simp only [applyRendererPixelRatio, enforcePixelBudget]
      exact hloop
  · have hnb : ¬ 0 < s.dprBucketIndex := by omega
    have hnt : ¬ 0 < s.effectQualityLevel := by omega
    rw [attemptUpgrade, if_neg hd, if_neg hnb, if_neg hnt, if_neg hnot]

/-- Concrete controller state for the C2 witness: bucket previously lowered
to 1, best tier, no debounce pending. -/
def wStateC2 : PerfState :=
  { category := Category.desktop
    baseCapInitial := 155 / 100
    baseCapMax := 7 / 4
    baseCapCurrent := 155 / 100
    deviceDPR := 2
    dprBucketIndex := 1
    effectQualityLevel := 0
    emaFrameTime := 1 / 60
    lastPerfChangeTime := 0
    lowPerfAccum := 0
    highPerfAccum := 0
    lastEmaFPS := 60
    lastCSSW := 1280
    lastCSSH := 720
    resumeGuardUntil := 0
    resumeIgnoreFrames := 0
    postResumeDebounceUntil := 0 }

/-- Witness for C2: from bucket 1, an upgrade step at `now = 2000` restores
the bucket to 0 leaving tier and base cap alone. -/
theorem upgrade_retracts_bucket_before_tier_check :
    (attemptUpgrade 2000 wStateC2).dprBucketIndex = 0 ∧
    (attemptUpgrade 2000 wStateC2).effectQualityLevel = 0 ∧
    (attemptUpgrade 2000 wStateC2).baseCapCurrent = 155 / 100 :=
  (upgrade_retracts_bucket_before_tier 2000 wStateC2
      (by norm_num [wStateC2, effectiveDebounceMs, PERF_CHANGE_DEBOUNCE])).1
    (by norm_num [wStateC2])
    (by norm_num [wStateC2, internalPixelsAt, currentTargetPixelRatioAt, bucketMul,
      DPR_BUCKETS, MAX_EFFECTIVE_DPR, PIXEL_BUDGET])

/-- Concrete controller state for the C2 counterexample: a large-display
desktop (CSS 3840 by 2160) whose base cap has reached 1.55, with the DPR
bucket pinned at its worst index 2 by the pixel budget — the state the
budget clamp itself produces on such a framebuffer, since even bucket 2
projects about 12.75 megapixels against the 9-megapixel budget. -/
def ceStateC2 : PerfState :=
  { category := Category.desktop
    baseCapInitial := 118 / 100
    baseCapMax := 155 / 100
    baseCapCurrent := 155 / 100
    deviceDPR := 2
    dprBucketIndex := 2
    effectQualityLevel := 0
    emaFrameTime := 1 / 60
    lastPerfChangeTime := 0
    lowPerfAccum := 0
    highPerfAccum := 0
    lastEmaFPS := 60
    lastCSSW := 3840
    lastCSSH := 2160
    resumeGuardUntil := 0
    resumeIgnoreFrames := 0
    postResumeDebounceUntil := 0 }

/-- Counterexample to C2 as stated: in this reachable budget-clamped state
the bucket index is above its best value and the debounce window has
passed, yet an upgrade step leaves the bucket unchanged at 2 instead of
decrementing it — `attemptUpgrade` lowers the bucket to 1, but the
`enforcePixelBudget` re-run inside `_applyRendererPixelRatio` finds
3840 * 2160 * 1.395² ≈ 16.1 megapixels over budget and immediately pushes
the bucket back to the worst index. -/
theorem upgrade_bucket_decrement_undone_by_budget :
    0 < ceStateC2.dprBucketIndex ∧
    effectiveDebounceMs 2000 ceStateC2 ≤ 2000 - ceStateC2.lastPerfChangeTime ∧
    (attemptUpgrade 2000 ceStateC2).dprBucketIndex = ceStateC2.dprBucketIndex ∧
    ¬ (attemptUpgrade 2000 ceStateC2).dprBucketIndex = ceStateC2.dprBucketIndex - 1 := by
  have hpx1 : internalPixelsAt ceStateC2 1 > PIXEL_BUDGET := by
    norm_num [internalPixelsAt, currentTargetPixelRatioAt, bucketMul, DPR_BUCKETS,
      MAX_EFFECTIVE_DPR, PIXEL_BUDGET, ceStateC2]
  have hloop : enforceBucketLoop (internalPixelsAt ceStateC2) 1 = 2 := by
    rw [enforceBucketLoop, dif_pos ⟨hpx1, by norm_num [DPR_BUCKETS]⟩,
      enforceBucketLoop, dif_neg (fun hc => absurd hc.2 (by norm_num [DPR_BUCKETS]))]
  have hdeb : ¬ 2000 - ceStateC2.lastPerfChangeTime < effectiveDebounceMs 2000 ceStateC2 := by
    norm_num [ceStateC2, effectiveDebounceMs, PERF_CHANGE_DEBOUNCE]
  have hpos : 0 < ceStateC2.dprBucketIndex := by norm_num [ceStateC2]
  have hres : (attemptUpgrade 2000 ceStateC2).dprBucketIndex = 2 := by
    rw [attemptUpgrade, if_neg hdeb, if_pos hpos]
    simp only [applyRendererPixelRatio, enforcePixelBudget, internalPixelsAt_bucket_irrel]
    exact hloop
  refine ⟨hpos, le_of_not_lt hdeb, ?_, ?_⟩
  · rw [hres]
    rfl
  · rw [hres]
    norm_num [ceStateC2]

/-- A degrade attempt never touches the resume-guard deadline. -/
lemma attemptDegrade_resumeGuardUntil (now : ℚ) (s : PerfState) :
    (attemptDegrade now s).resumeGuardUntil = s.resumeGuardUntil := by
  rw [attemptDegrade]
  split_ifs <;> rfl

/-- An upgrade attempt never touches the resume-guard deadline. -/
lemma attemptUpgrade_resumeGuardUntil (now : ℚ) (s : PerfState) :
    (attemptUpgrade now s).resumeGuardUntil = s.resumeGuardUntil := by
  rw [attemptUpgrade]
  split_ifs <;> rfl

/-- C4: immediately after a resume event (`_triggerResumeGuard`, fired on
visibilitychange-to-visible, focus and pageshow), the degrade path is a
no-op on the whole controller state for every call time inside the 4.5 s
guard window, whatever frame samples (however low their instantaneous FPS)
have been fed meanwhile: the per-frame update never shortens the guard
deadline, and a degrade attempt before the deadline returns the state
unchanged. -/
theorem resume_guard_blocks_degrade :
    (∀ (now : ℚ) (s : PerfState), now < s.resumeGuardUntil →
      attemptDegrade now s = s) ∧
    (∀ (t : ℚ) (s : PerfState), (triggerResumeGuard t s).resumeGuardUntil = t + 4500) ∧
    (∀ (e : ℚ → ℚ) (delta now : ℚ) (s : PerfState),
      (perfAdaptiveUpdate e delta now s).resumeGuardUntil = s.resumeGuardUntil) := by
  refine ⟨fun now s h => ?_, fun t s => rfl, fun e delta now s => ?_⟩
  · rw [attemptDegrade, if_pos h]
  · simp only [perfAdaptiveUpdate]
    split_ifs <;>
      simp [attemptDegrade_resumeGuardUntil, attemptUpgrade_resumeGuardUntil]

/-- Concrete controller state for the C4 witness. -/
def wStateC4 : PerfState :=
  { category := Category.phone
    baseCapInitial := 135 / 100
    baseCapMax := 3 / 2
    baseCapCurrent := 135 / 100
    deviceDPR := 3
    dprBucketIndex := 0
    effectQualityLevel := 0
    emaFrameTime := 1 / 60
    lastPerfChangeTime := 0
    lowPerfAccum := 0
    highPerfAccum := 0
    lastEmaFPS := 60
    lastCSSW := 390
    lastCSSH := 844
    resumeGuardUntil := 0
    resumeIgnoreFrames := 0
    postResumeDebounceUntil := 0 }

/-- Witness for C4: 100 ms after a resume event at `t = 0`, a degrade
attempt changes nothing. -/
theorem resume_guard_blocks_degrade_check :
    attemptDegrade 100 (triggerResumeGuard 0 wStateC4) = triggerResumeGuard 0 wStateC4 :=
  resume_guard_blocks_degrade.1 100 (triggerResumeGuard 0 wStateC4)
    (by norm_num [triggerResumeGuard])

/-- A degrade attempt never changes the base cap. -/
lemma attemptDegrade_baseCap (now : ℚ) (s : PerfState) :
    (attemptDegrade now s).baseCapCurrent = s.baseCapCurrent := by
  rw [attemptDegrade]
  split_ifs <;> rfl

/-- An upgrade attempt never lowers the base cap. -/
lemma attemptUpgrade_baseCap_mono (now : ℚ) (s : PerfState) :
    s.baseCapCurrent ≤ (attemptUpgrade now s).baseCapCurrent := by
  rw [attemptUpgrade]
  split_ifs with h1 h2 h3 h4
  · exact le_rfl
  · exact le_rfl
  · exact le_rfl
  · show s.baseCapCurrent ≤ min s.baseCapMax (s.baseCapCurrent + 1 / 10)
    exact le_min h4.2.le (by linarith)
  · exact le_rfl

/-- Form of the upgrade monotonicity with a decoupled left-hand side, for
use under the per-frame update where the state is a structure literal. -/
lemma attemptUpgrade_baseCap_le (now : ℚ) (s : PerfState) (c : ℚ)
    (h : c = s.baseCapCurrent) :
    c ≤ (attemptUpgrade now s).baseCapCurrent := by
  subst h
  exact attemptUpgrade_baseCap_mono now s

/-- C5 (amended): `baseCapCurrent` never decreases under any operation of
the controller itself — degrade, upgrade, pixel-budget enforcement, resume
handling, the per-frame update, and the `forceBucket`/`forceTier` debug
overrides.  (The remaining override, `setBaseCap`, can lower it; see the
accompanying counterexample.) -/
theorem baseCap_monotone_under_controller :
    (∀ (now : ℚ) (s : PerfState),
      s.baseCapCurrent ≤ (attemptDegrade now s).baseCapCurrent) ∧
    (∀ (now : ℚ) (s : PerfState),
      s.baseCapCurrent ≤ (attemptUpgrade now s).baseCapCurrent) ∧
    (∀ s : PerfState, s.baseCapCurrent ≤ (enforcePixelBudget s).baseCapCurrent) ∧
    (∀ (t : ℚ) (s : PerfState),
      s.baseCapCurrent ≤ (triggerResumeGuard t s).baseCapCurrent) ∧
    (∀ (e : ℚ → ℚ) (delta now : ℚ) (s : PerfState),
      s.baseCapCurrent ≤ (perfAdaptiveUpdate e delta now s).baseCapCurrent) ∧
    (∀ (i : ℤ) (s : PerfState), s.baseCapCurrent ≤ (forceBucket i s).baseCapCurrent) ∧
    (∀ (i : ℤ) (s : PerfState), s.baseCapCurrent ≤ (forceTier i s).baseCapCurrent) := by
  refine ⟨fun now s => le_of_eq (attemptDegrade_baseCap now s).symm,
    fun now s => attemptUpgrade_baseCap_mono now s,
    fun s => le_rfl, fun t s => le_rfl, fun e delta now s => ?_,
    fun i s => le_rfl, fun i s => le_rfl⟩
  simp only [perfAdaptiveUpdate]
  split_ifs
  · exact le_rfl
  · exact le_of_eq (by simp [attemptDegrade_baseCap])
  · exact le_rfl
  · exact attemptUpgrade_baseCap_le now _ _ rfl
  · exact le_rfl
  · exact le_rfl

/-- Concrete controller state for the C5 counterexample: a small-display
desktop profile running at its initial base cap 1.55. -/
def ceStateC5 : PerfState :=
  { category := Category.desktop
    baseCapInitial := 155 / 100
    baseCapMax := 7 / 4
    baseCapCurrent := 155 / 100
    deviceDPR := 2
    dprBucketIndex := 0
    effectQualityLevel := 0
    emaFrameTime := 1 / 60
    lastPerfChangeTime := 0
    lowPerfAccum := 0
    highPerfAccum := 0
    lastEmaFPS := 60
    lastCSSW := 1920
    lastCSSH := 1080
    resumeGuardUntil := 0
    resumeIgnoreFrames := 0
    postResumeDebounceUntil := 0 }

/-- Counterexample to C5 as stated: the exposed override
`window.__perfDebug.setBaseCap(1.0)` lowers `baseCapCurrent` from 1.55 to
1.0, so not every exposed override entry point leaves `baseCapCurrent`
greater than or equal to its previous value. -/
theorem setBaseCap_can_lower_baseCap :
    (setBaseCap 1 ceStateC5).baseCapCurrent < ceStateC5.baseCapCurrent := by
  norm_num [setBaseCap, applyRendererPixelRatio, enforcePixelBudget, ceStateC5]

/-- The mutual-exclusion invariant of the two duration accumulators: at
most one of them is nonzero. -/
def accumInv (s : PerfState) : Prop :=
  s.lowPerfAccum = 0 ∨ s.highPerfAccum = 0

/-- C9: the per-frame update preserves the mutual exclusion of the two
duration accumulators for every nonnegative frame delta — a degrading-band
frame zeroes the high accumulator, an upgrading-band frame zeroes the low
one, neutral-band decay keeps a zero accumulator at zero, ignored
post-resume frames touch neither — and a resume event zeroes both. -/
theorem perf_accumulators_mutually_exclusive :
    (∀ (e : ℚ → ℚ) (delta now : ℚ) (s : PerfState), 0 ≤ delta → accumInv s →
      accumInv (perfAdaptiveUpdate e delta now s)) ∧
    (∀ (t : ℚ) (s : PerfState),
      (triggerResumeGuard t s).lowPerfAccum = 0 ∧
      (triggerResumeGuard t s).highPerfAccum = 0) := by
  constructor
  · intro e delta now s hdelta hinv
    have h400 : 0 ≤ delta * 400 := by positivity
    simp only [perfAdaptiveUpdate]
    split_ifs
    · exact hinv
    · exact Or.inl rfl
    · exact Or.inr rfl
    · exact Or.inr rfl
    · exact Or.inl rfl
    · rcases hinv with h | h
      · refine Or.inl ?_
        show max 0 (s.lowPerfAccum - delta * 400) = 0
        rw [h]
        exact max_eq_left (by linarith)
      · refine Or.inr ?_
        show max 0 (s.highPerfAccum - delta * 400) = 0
        rw [h]
        exact max_eq_left (by linarith)
  · intro t s
    exact ⟨rfl, rfl⟩

/-- Concrete controller state for the C9 witness: both accumulators zero,
no frames to ignore. -/
def wStateC9 : PerfState :=
  { category := Category.tablet
    baseCapInitial := 125 / 100
    baseCapMax := 13 / 10
    baseCapCurrent := 125 / 100
    deviceDPR := 2
    dprBucketIndex := 0
    effectQualityLevel := 0
    emaFrameTime := 1 / 60
    lastPerfChangeTime := 0
    lowPerfAccum := 0
    highPerfAccum := 0
    lastEmaFPS := 60
    lastCSSW := 1024
    lastCSSH := 768
    resumeGuardUntil := 0
    resumeIgnoreFrames := 0
    postResumeDebounceUntil := 0 }

/-- Witness for C9: one per-frame update at a 60 fps delta keeps the
accumulator invariant. -/
theorem perf_accumulators_mutually_exclusive_check :
    accumInv (perfAdaptiveUpdate (fun _ => 1 / 2) (1 / 60) 0 wStateC9) :=
  perf_accumulators_mutually_exclusive.1 (fun _ => 1 / 2) (1 / 60) 0 wStateC9
    (by norm_num) (Or.inl rfl)

end Portfolio
